import Mathlib

/-!
Verification of the session-state store of `react-context` (src/src/App.js).

The repository's logic is a reducer over a user record, an initial record,
and a context accessor that raises when no provider is present.  We embed
the untyped JavaScript values as `JSValue`, the state record and actions as
structures, and the reducer and accessor as total Lean functions mirroring
the source line by line.
-/

/-- A JavaScript value as far as this program manipulates them: the reducer
stores action payloads verbatim, so payloads may be booleans, strings, or
other values such as `null` or `undefined`. -/
inductive JSValue where
  | bool (b : Bool)
  | str (s : String)
  | null
  | undefined
deriving DecidableEq, Repr

/-- `true` exactly when the value is a JavaScript boolean. -/
def JSValue.isBool : JSValue → Bool
  | .bool _ => true
  | _ => false

/-- `true` exactly when the value is a JavaScript string. -/
def JSValue.isStr : JSValue → Bool
  | .str _ => true
  | _ => false

/-- The user-session record `{ isLoggedIn, username, email }` of App.js.
Fields hold arbitrary JavaScript values, as in the source. -/
structure UserState where
  isLoggedIn : JSValue
  username : JSValue
  email : JSValue
deriving DecidableEq, Repr

/-- An action dispatched to the reducer: `{ type, payload }`. -/
structure UserAction where
  type : String
  payload : JSValue
deriving DecidableEq, Repr

/-- `initialUserState` from App.js:
`{ isLoggedIn: false, username: '', email: '' }`. -/
def initialUserState : UserState :=
  { isLoggedIn := .bool false, username := .str "", email := .str "" }

/-- `userReducer` from App.js: a switch on `action.type` that copies the
record replacing one field with `action.payload`, defaulting to the
unchanged state. -/
def userReducer (state : UserState) (action : UserAction) : UserState :=
  match action.type with
  | "SET_LOGGEDIN" => { state with isLoggedIn := action.payload }
  | "SET_USERNAME" => { state with username := action.payload }
  | "SET_EMAIL" => { state with email := action.payload }
  | _ => state

/-- The message of the error App.js throws when the context is absent. -/
def noProviderError : String := "userContext needs to be within a Provider"

/-- The value a provider places in the context: it carries the current
user state (the dispatch half is the framework's wiring). -/
structure ProviderValue where
  userState : UserState
deriving DecidableEq, Repr

/-- `useUserContext` from App.js: reads the context; when no provider is
present (`context == null`, i.e. `none`) it throws, otherwise it returns
the context value. -/
def useUserContext (context : Option ProviderValue) : Except String ProviderValue :=
  match context with
  | none => .error noProviderError
  | some c => .ok c

/-- Dispatching a list of actions in order against the reducer, as the
store does starting from a given record. -/
def runActions (s : UserState) (actions : List UserAction) : UserState :=
  actions.foldl userReducer s

/-- C1: for every session state `s` and every value `v`, the reducer on
`SET_LOGGEDIN` with payload `v` returns a record whose `isLoggedIn` field
equals `v` and whose `username` and `email` fields equal those of `s`. -/
theorem userReducer_setLoggedIn (s : UserState) (v : JSValue) :
    (userReducer s ⟨"SET_LOGGEDIN", v⟩).isLoggedIn = v ∧
    (userReducer s ⟨"SET_LOGGEDIN", v⟩).username = s.username ∧
    (userReducer s ⟨"SET_LOGGEDIN", v⟩).email = s.email := by
  refine ⟨rfl, rfl, rfl⟩

/-- C2: for every session state `s` and every string `v`, the reducer on
`SET_USERNAME` with payload `v` returns a record whose `username` field
equals `v` and whose `isLoggedIn` and `email` fields equal those of `s`. -/
theorem userReducer_setUsername (s : UserState) (v : String) :
    (userReducer s ⟨"SET_USERNAME", .str v⟩).username = .str v ∧
    (userReducer s ⟨"SET_USERNAME", .str v⟩).isLoggedIn = s.isLoggedIn ∧
    (userReducer s ⟨"SET_USERNAME", .str v⟩).email = s.email := by
  refine ⟨rfl, rfl, rfl⟩

/-- C3: for every session state `s` and every string `v`, the reducer on
`SET_EMAIL` with payload `v` returns a record whose `email` field equals
`v` and whose `isLoggedIn` and `username` fields equal those of `s`. -/
theorem userReducer_setEmail (s : UserState) (v : String) :
    (userReducer s ⟨"SET_EMAIL", .str v⟩).email = .str v ∧
    (userReducer s ⟨"SET_EMAIL", .str v⟩).isLoggedIn = s.isLoggedIn ∧
    (userReducer s ⟨"SET_EMAIL", .str v⟩).username = s.username := by
  refine ⟨rfl, rfl, rfl⟩

/-- C4: for every session state `s` and every action whose type is not one
of `SET_LOGGEDIN`, `SET_USERNAME`, `SET_EMAIL`, the reducer returns `s`
exactly: the default arm is a silent no-op and no error is raised. -/
theorem userReducer_unknown (s : UserState) (a : UserAction)
    (h1 : a.type ≠ "SET_LOGGEDIN") (h2 : a.type ≠ "SET_USERNAME")
    (h3 : a.type ≠ "SET_EMAIL") :
    userReducer s a = s := by
  unfold userReducer
  split
  · exact absurd (by assumption) h1
  · exact absurd (by assumption) h2
  · exact absurd (by assumption) h3
  · rfl

/-- Witness for C4 at a concrete unrecognized action type. -/
theorem userReducer_unknown_witness :
    userReducer initialUserState ⟨"SET_POKEMON", .null⟩ = initialUserState :=
  userReducer_unknown initialUserState ⟨"SET_POKEMON", .null⟩
    (by decide) (by decide) (by decide)

/-- C5: the reducer is total and cannot fail: on every state and every
action (recognized or not) it is defined and returns a session record
that is one of the three single-field updates or the unchanged state.
As a Lean function it is pure by construction. -/
theorem userReducer_total (s : UserState) (a : UserAction) :
    userReducer s a = { s with isLoggedIn := a.payload } ∨
    userReducer s a = { s with username := a.payload } ∨
    userReducer s a = { s with email := a.payload } ∨
    userReducer s a = s := by
  unfold userReducer
  split
  · exact Or.inl rfl
  · exact Or.inr (Or.inl rfl)
  · exact Or.inr (Or.inr (Or.inl rfl))
  · exact Or.inr (Or.inr (Or.inr rfl))

/-- C6: the initial session record at store creation is
`{ isLoggedIn: false, username: "", email: "" }`. -/
theorem initialUserState_default :
    initialUserState =
      { isLoggedIn := .bool false, username := .str "", email := .str "" } :=
  rfl

/-- C7: applying the same set request twice is idempotent: for every state
`s`, payload `v`, and request type among the three recognized setters,
dispatching the action twice yields the same record as dispatching it
once. -/
theorem userReducer_idempotent (s : UserState) (v : JSValue) (t : String)
    (h : t = "SET_LOGGEDIN" ∨ t = "SET_USERNAME" ∨ t = "SET_EMAIL") :
    userReducer (userReducer s ⟨t, v⟩) ⟨t, v⟩ = userReducer s ⟨t, v⟩ := by
  rcases h with h | h | h <;> subst h <;> rfl

/-- Witness for C7 at a concrete setter action. -/
theorem userReducer_idempotent_witness :
    userReducer (userReducer initialUserState ⟨"SET_USERNAME", .str "alice"⟩)
        ⟨"SET_USERNAME", .str "alice"⟩ =
      userReducer initialUserState ⟨"SET_USERNAME", .str "alice"⟩ :=
  userReducer_idempotent initialUserState (.str "alice") "SET_USERNAME"
    (Or.inr (Or.inl rfl))

/-- C8: starting from the default record, dispatching
`SET_USERNAME "alice"`, `SET_EMAIL "a@x.com"`, `SET_LOGGEDIN true`,
`SET_LOGGEDIN false` in order passes through the four stated intermediate
records. -/
theorem scenario_alice :
    runActions initialUserState [⟨"SET_USERNAME", .str "alice"⟩] =
      { isLoggedIn := .bool false, username := .str "alice", email := .str "" } ∧
    runActions initialUserState
        [⟨"SET_USERNAME", .str "alice"⟩, ⟨"SET_EMAIL", .str "a@x.com"⟩] =
      { isLoggedIn := .bool false, username := .str "alice",
        email := .str "a@x.com" } ∧
    runActions initialUserState
        [⟨"SET_USERNAME", .str "alice"⟩, ⟨"SET_EMAIL", .str "a@x.com"⟩,
          ⟨"SET_LOGGEDIN", .bool true⟩] =
      { isLoggedIn := .bool true, username := .str "alice",
        email := .str "a@x.com" } ∧
    runActions initialUserState
        [⟨"SET_USERNAME", .str "alice"⟩, ⟨"SET_EMAIL", .str "a@x.com"⟩,
          ⟨"SET_LOGGEDIN", .bool true⟩, ⟨"SET_LOGGEDIN", .bool false⟩] =
      { isLoggedIn := .bool false, username := .str "alice",
        email := .str "a@x.com" } := by
  refine ⟨rfl, rfl, rfl, rfl⟩

/-- C9: accessing the store API outside an initialized provider scope
(`context = none`) fails with the no-provider error; with a provider
present the accessor succeeds and returns the context handle; and the
no-provider error is the only failure the accessor can produce. -/
theorem useUserContext_correct (ctx : Option ProviderValue) :
    (ctx = none → useUserContext ctx = .error noProviderError) ∧
    (∀ c : ProviderValue, ctx = some c → useUserContext ctx = .ok c) ∧
    (∀ e : String, useUserContext ctx = .error e → e = noProviderError) := by
  cases ctx with
  | none =>
    refine ⟨fun _ => rfl, ?_, ?_⟩
    · intro c hc
      cases hc
    · intro e he
      injection he with h
      exact h.symm
  | some c =>
    refine ⟨?_, ?_, ?_⟩
    · intro h
      cases h
    · intro d hd
      cases hd
      rfl
    · intro e he
      exact Except.noConfusion he

/-- Witness for C9: with no provider the accessor fails with the
no-provider error. -/
theorem useUserContext_correct_witness :
    useUserContext none = .error noProviderError :=
  (useUserContext_correct none).1 rfl

/-- C10: the reducer stores payloads verbatim with no validation or
coercion: for every state and every payload of any kind, the targeted
field becomes exactly the payload; hence the `isLoggedIn` field is a
boolean after the transition exactly when the payload was, and likewise
the string fields are strings exactly when their payloads were. -/
theorem userReducer_verbatim (s : UserState) (v : JSValue) :
    (userReducer s ⟨"SET_LOGGEDIN", v⟩).isLoggedIn = v ∧
    (userReducer s ⟨"SET_USERNAME", v⟩).username = v ∧
    (userReducer s ⟨"SET_EMAIL", v⟩).email = v ∧
    ((userReducer s ⟨"SET_LOGGEDIN", v⟩).isLoggedIn.isBool = true ↔
      v.isBool = true) ∧
    ((userReducer s ⟨"SET_USERNAME", v⟩).username.isStr = true ↔
      v.isStr = true) ∧
    ((userReducer s ⟨"SET_EMAIL", v⟩).email.isStr = true ↔
      v.isStr = true) := by
  refine ⟨rfl, rfl, rfl, Iff.rfl, Iff.rfl, Iff.rfl⟩
